import Mathlib

/-!
Shallow embedding of the LIT game socket server core (src/socket-server.js).

The JavaScript handlers mutate a per-room object stored in the `gameRooms`
map.  Here every handler is a pure function from the (optional) looked-up
room and the actor's socket id to `Except String Room`: the error string is
exactly the `message` the handler emits, and `Except.ok` carries the room as
it stands after the handler's in-place mutations.  Every error path of the
source returns before any mutation, so an error leaves the room unchanged.

JavaScript's dynamic fields are embedded explicitly:
  * fields a handler reads but no code ever assigns (`room.adminId`,
    `room.playerCount`) are `Option`-valued and are `none` on every room
    `createRoom` builds — `x !== undefined-field` comparisons are then
    inequalities against `none`;
  * `createRoom` initialises `capturedSets` to the plain object
    `{A: [], B: []}` while `declareSet` calls `.push` on it as if it were an
    array; the sum type `CapturedSetsVal` keeps both shapes, and `declareSet`
    on the object shape is the thrown `TypeError`;
  * a player's `team` is `Option String`: `none` is the host's `null`,
    `some "unassigned"` the value `joinRoom` assigns.
-/

structure Card where
  suit : String
  rank : String
  setType : String
deriving DecidableEq, Repr, Inhabited

structure Player where
  id : String
  name : String
  team : Option String
  hand : List Card
  isHost : Bool
  connected : Bool
  canClaimTurn : Bool
deriving DecidableEq, Repr, Inhabited

/-- One entry of the captured-sets log pushed by `declareSet`; its `team`
field carries the declarer's raw `team` value (an `Option String`, since a
player's team can still be the host's `null`). -/
structure CapturedSetEntry where
  team : Option String
  suit : String
  setType : String
deriving DecidableEq, Repr, Inhabited

/-- The two shapes `room.capturedSets` takes in the source: `createRoom`
stores the object literal `{A: [], B: []}` (`obj`), while `declareSet` and
`checkWinCondition` use it as an array (`arr`). -/
inductive CapturedSetsVal where
  | obj (a b : List CapturedSetEntry)
  | arr (l : List CapturedSetEntry)
deriving DecidableEq, Repr, Inhabited

structure Room where
  name : String
  players : List Player
  /-- `createRoom` stores its `playerCount` input here. -/
  maxPlayers : Option Nat
  /-- Read by `joinRoom` and `startGame`, but never assigned anywhere:
  `none` (JS `undefined`) on every room the server builds. -/
  playerCount : Option Nat
  /-- Read by `startGame`, but never assigned anywhere: always `none`. -/
  adminId : Option String
  /-- Set to `"waiting"` by `createRoom` and never read or written again. -/
  status : String
  /-- Set by `startGame` (`"playing"`) and `declareSet` (`"finished"`). -/
  gameStatus : Option String
  teams : List String × List String
  currentTurn : Option String
  currentTurnPlayerId : Option String
  deck : List Card
  capturedSets : CapturedSetsVal
  winner : Option String
  lastAction : Option String
deriving DecidableEq, Repr, Inhabited

/-- The room state after a handler ran: the handler's `ok` room, or the
input room untouched when the handler errored (every error path in the
source returns before mutating). -/
def postRoom (room : Room) : Except String Room → Room
  | Except.ok r => r
  | Except.error _ => room

/-- Embeds `socket.on('createRoom')` (socket-server.js:271-332).  `roomExists`
is `gameRooms.has(roomName)`.  Note the slips this room literal carries:
the capacity goes into `maxPlayers` (not the `playerCount` that `joinRoom`
and `startGame` read), no `adminId` is assigned, and `capturedSets` is the
object `{A: [], B: []}`. -/
def createRoom (roomExists : Bool) (socketId playerName roomName : String)
    (playerCount : Option Nat) : Except String (Room × String) :=
  if playerName = "" ∨ roomName = "" then
    Except.error "Player name and room name are required"
  else if roomExists then
    Except.error "Room already exists"
  else
    let playerId := socketId
    let room : Room :=
      { name := roomName
        players := [{ id := playerId, name := playerName, team := none,
                      hand := [], isHost := true, connected := false,
                      canClaimTurn := false }]
        maxPlayers := playerCount
        playerCount := none
        adminId := none
        status := "waiting"
        gameStatus := none
        teams := ([], [])
        currentTurn := none
        currentTurnPlayerId := none
        deck := []
        capturedSets := CapturedSetsVal.obj [] []
        winner := none
        lastAction := none }
    Except.ok (room, playerId)

/-- Embeds `room.players.length >= room.playerCount` from `joinRoom`
(socket-server.js:342): with `room.playerCount` undefined the JS comparison
is `NaN`-valued and false, so the room is never judged full. -/
def roomIsFull (room : Room) : Bool :=
  match room.playerCount with
  | none => false
  | some n => room.players.length ≥ n

/-- Embeds `socket.on('joinRoom')` (socket-server.js:335-360). -/
def joinRoom (room? : Option Room) (playerName socketId : String) :
    Except String (Room × String) :=
  match room? with
  | none => Except.error "Room not found"
  | some room =>
    if roomIsFull room then
      Except.error "Room is full"
    else
      let playerId := socketId
      let player : Player :=
        { id := playerId, name := playerName, hand := [],
          team := some "unassigned", isHost := false, connected := true,
          canClaimTurn := false }
      Except.ok ({ room with players := room.players ++ [player] }, playerId)

/-- Embeds `room.players.find(p => p.id === pid)`: the first player whose
`id` equals `pid`. -/
def findFirst : List Player → String → Option Player
  | [], _ => none
  | p :: ps, pid => if p.id = pid then some p else findFirst ps pid

/-- Embeds an in-place mutation of the player object `find` returned: the
first player whose `id` equals `pid` is replaced by `f` of itself. -/
def setFirst : List Player → String → (Player → Player) → List Player
  | [], _, _ => []
  | p :: ps, pid, f => if p.id = pid then f p :: ps else p :: setFirst ps pid f

/-- Embeds `socket.on('joinTeam')` (socket-server.js:363-378). -/
def joinTeam (room? : Option Room) (socketId team : String) :
    Except String Room :=
  match room? with
  | none => Except.error "Room not found"
  | some room =>
    match findFirst room.players socketId with
    | none => Except.error "Player not found"
    | some _ =>
      Except.ok { room with
        players := setFirst room.players socketId
          fun p => { p with team := some team } }

def suits : List String := ["hearts", "diamonds", "clubs", "spades"]

def lowerRanks : List String := ["ace", "2", "3", "4", "5", "6"]

def upperRanks : List String := ["8", "9", "10", "jack", "queen", "king"]

/-- The deck as `createAndShuffleDeck` builds it before the shuffle
(socket-server.js:141-159): all lower-set cards suit by suit, then all
upper-set cards. -/
def orderedDeck : List Card :=
  (suits.bind fun suit => lowerRanks.map fun rank =>
    { suit := suit, rank := rank, setType := "lower" }) ++
  (suits.bind fun suit => upperRanks.map fun rank =>
    { suit := suit, rank := rank, setType := "upper" })

/-- One iteration of the Fisher-Yates loop:
`[deck[i], deck[j]] = [deck[j], deck[i]]`.  Out-of-range indices never occur
in the source (`j = floor(random() * (i+1)) <= i < length`); here they leave
the list unchanged. -/
def swapList (l : List Card) (i j : Nat) : List Card :=
  match l[i]?, l[j]? with
  | some a, some b => (l.set i b).set j a
  | _, _ => l

/-- The shuffle loop of `createAndShuffleDeck` (socket-server.js:162-165):
for `i` from `n` down to `1`, swap position `i` with position `js i`, where
`js i` embeds the draw `Math.floor(Math.random() * (i + 1))`. -/
def shuffleFrom (js : Nat → Nat) : Nat → List Card → List Card
  | 0, d => d
  | i + 1, d => shuffleFrom js i (swapList d (i + 1) (js (i + 1)))

/-- Embeds `createAndShuffleDeck` (socket-server.js:141-168), the random
draws abstracted into `js`. -/
def createAndShuffleDeck (js : Nat → Nat) : List Card :=
  shuffleFrom js (orderedDeck.length - 1) orderedDeck

/-- Embeds `isValidRequest` (socket-server.js:171-199). -/
def isValidRequest (requestingPlayer targetPlayer : Player)
    (suit rank setType : String) : Bool :=
  if requestingPlayer.id = targetPlayer.id then false
  else if requestingPlayer.team = targetPlayer.team then false
  else if requestingPlayer.hand.length = 0 then false
  else if targetPlayer.hand.length = 0 then false
  else if (requestingPlayer.hand.any fun card =>
      decide (card.suit = suit ∧ card.setType = setType)) = false then false
  else if requestingPlayer.hand.any fun card =>
      decide (card.suit = suit ∧ card.rank = rank ∧ card.setType = setType) then false
  else true

/-- Embeds `hand.findIndex(...)` followed by `splice(cardIndex, 1)` in
`transferCard`: the first card matching `(suit, rank, setType)` is removed
and returned. -/
def extractCard : List Card → String → String → String → Option (Card × List Card)
  | [], _, _, _ => none
  | c :: cs, suit, rank, setType =>
    if c.suit = suit ∧ c.rank = rank ∧ c.setType = setType then
      some (c, cs)
    else
      match extractCard cs suit rank setType with
      | none => none
      | some (x, rest) => some (x, c :: rest)

/-- Embeds `transferCard` (socket-server.js:202-214): the result is
`(returned boolean, fromPlayer.hand, toPlayer.hand)` after the call. -/
def transferCard (fromHand toHand : List Card) (suit rank setType : String) :
    Bool × List Card × List Card :=
  match extractCard fromHand suit rank setType with
  | none => (false, fromHand, toHand)
  | some (card, rest) => (true, rest, toHand ++ [card])

/-- Embeds `teamHasCompleteSet` (socket-server.js:217-232). -/
def teamHasCompleteSet (players : List Player) (team : Option String)
    (suit setType : String) : Bool :=
  let teamPlayers := players.filter fun p => decide (p.team = team)
  let teamCards := (teamPlayers.map Player.hand).join
  let ranks := if setType = "lower"
    then ["ace", "2", "3", "4", "5", "6"]
    else ["8", "9", "10", "jack", "queen", "king"]
  ranks.all fun rank => teamCards.any fun card =>
    decide (card.suit = suit ∧ card.rank = rank ∧ card.setType = setType)

/-- Embeds `capturedSets.filter(set => set.team === 'red').length` from
`checkWinCondition`. -/
def redSetCount (capturedSets : List CapturedSetEntry) : Nat :=
  (capturedSets.filter fun s => decide (s.team = some "red")).length

/-- Embeds `capturedSets.filter(set => set.team === 'blue').length` from
`checkWinCondition`. -/
def blueSetCount (capturedSets : List CapturedSetEntry) : Nat :=
  (capturedSets.filter fun s => decide (s.team = some "blue")).length

/-- Embeds `checkWinCondition` (socket-server.js:235-243). -/
def checkWinCondition (capturedSets : List CapturedSetEntry) : Option String :=
  let redSets := redSetCount capturedSets
  let blueSets := blueSetCount capturedSets
  if redSets ≥ 3 ∧ redSets > blueSets then some "red"
  else if blueSets ≥ 3 ∧ blueSets > redSets then some "blue"
  else if redSets ≥ 3 ∧ blueSets ≥ 3 ∧ redSets = blueSets then some "draw"
  else none

/-- Embeds `getNextPlayer` (socket-server.js:246-250).  JS `findIndex`
yields `-1` when the id is absent, and `(-1 + 1) % length = 0`, hence the
`players[0]?` in the `none` case; an empty `players` makes the source throw
on `.id`, which surfaces as `none` here and as an error in `declareSet`. -/
def getNextPlayer (currentPlayerId : String) (players : List Player) :
    Option Player :=
  match players.findIdx? fun p => decide (p.id = currentPlayerId) with
  | some i => players[(i + 1) % players.length]?
  | none => players[0]?

/-- Embeds `player.hand = deck.splice(0, 6)` applied to each player in list
order: each hand is the next 6 cards off the front of the deck. -/
def dealHands : List Card → List Player → List Player
  | _, [] => []
  | deck, p :: ps => { p with hand := deck.take 6 } :: dealHands (deck.drop 6) ps

/-- Embeds `socket.on('startGame')` (socket-server.js:381-417).  The checks
compare against `room.adminId` and `room.playerCount`, both of which no code
assigns — `createRoom` marks the host only via `isHost` and stores the
capacity in `maxPlayers` — so on every room the server builds the first
check already fails. -/
def startGame (room? : Option Room) (socketId : String) (js : Nat → Nat) :
    Except String Room :=
  match room? with
  | none => Except.error "Room not found"
  | some room =>
    if room.adminId ≠ some socketId then
      Except.error "Only the admin can start the game"
    else if (match room.playerCount with
             | none => true
             | some n => room.players.length ≠ n) then
      Except.error "Room is not full"
    else
      let redTeam := room.players.filter fun p => decide (p.team = some "red")
      let blueTeam := room.players.filter fun p => decide (p.team = some "blue")
      if redTeam.length ≠ blueTeam.length then
        Except.error "Teams must be balanced"
      else
        let deck := createAndShuffleDeck js
        let players := dealHands deck room.players
        match players.head? with
        | none => Except.error "TypeError: cannot read id of undefined"
        | some p0 =>
          Except.ok { room with
            players := players,
            currentTurnPlayerId := some p0.id,
            gameStatus := some "playing" }

/-- Embeds `socket.on('requestCard')` (socket-server.js:420-462). -/
def requestCard (room? : Option Room)
    (socketId targetPlayerId suit rank setType : String) :
    Except String Room :=
  match room? with
  | none => Except.error "Room not found"
  | some room =>
    match findFirst room.players socketId with
    | none => Except.error "Player not found"
    | some requestingPlayer =>
      match findFirst room.players targetPlayerId with
      | none => Except.error "Player not found"
      | some targetPlayer =>
       if room.currentTurnPlayerId ≠ some requestingPlayer.id then
        Except.error "Not your turn"
      else if isValidRequest requestingPlayer targetPlayer suit rank setType
          = false then
        Except.error "Invalid card request"
      else
        let hasCard := targetPlayer.hand.any fun card =>
          decide (card.suit = suit ∧ card.rank = rank ∧ card.setType = setType)
        if hasCard then
          let tr := transferCard targetPlayer.hand requestingPlayer.hand
            suit rank setType
          let players1 := setFirst room.players targetPlayerId
            fun p => { p with hand := tr.2.1 }
          let players2 := setFirst players1 socketId
            fun p => { p with hand := tr.2.2 }
          Except.ok { room with
            players := players2,
            lastAction := some (requestingPlayer.name ++ " got the " ++ rank
              ++ " of " ++ suit ++ " from " ++ targetPlayer.name),
            currentTurnPlayerId := some targetPlayer.id }
        else
          Except.ok { room with
            lastAction := some (requestingPlayer.name ++ " asked "
              ++ targetPlayer.name ++ " for the " ++ rank ++ " of " ++ suit
              ++ " but they didn\x27t have it"),
            currentTurnPlayerId := some targetPlayer.id }

/-- Renders a team value the way a JS template literal renders it inside
`lastAction` (`null` prints as "null"). -/
def teamText : Option String → String
  | none => "null"
  | some t => t

/-- Embeds `socket.on('declareSet')` (socket-server.js:465-515).  On every
room `createRoom` built, `room.capturedSets` is still the object
`{A: [], B: []}`, so `room.capturedSets.push(...)` is the thrown
`TypeError` embedded by the `obj` branch. -/
def declareSet (room? : Option Room) (socketId suit setType : String) :
    Except String Room :=
  match room? with
  | none => Except.error "Room not found"
  | some room =>
    match findFirst room.players socketId with
    | none => Except.error "Player not found"
    | some declaringPlayer =>
      if room.currentTurnPlayerId ≠ some declaringPlayer.id then
        Except.error "Not your turn"
      else
        match room.capturedSets with
        | CapturedSetsVal.obj _ _ =>
          Except.error "TypeError: room.capturedSets.push is not a function"
        | CapturedSetsVal.arr cs =>
          let isCorrect := teamHasCompleteSet room.players
            declaringPlayer.team suit setType
          let entry : CapturedSetEntry :=
            if isCorrect then
              { team := declaringPlayer.team, suit := suit, setType := setType }
            else
              { team := some (if declaringPlayer.team = some "red"
                  then "blue" else "red"),
                suit := suit, setType := setType }
          let message :=
            if isCorrect then
              declaringPlayer.name ++ " correctly declared the " ++ setType
                ++ " " ++ suit ++ " set for the "
                ++ teamText declaringPlayer.team ++ " team"
            else
              declaringPlayer.name ++ " incorrectly declared the " ++ setType
                ++ " " ++ suit ++ " set, giving it to the "
                ++ teamText entry.team ++ " team"
          let room1 := { room with
            capturedSets := CapturedSetsVal.arr (cs ++ [entry]),
            lastAction := some message }
          match checkWinCondition (cs ++ [entry]) with
          | some winner =>
            Except.ok { room1 with
              gameStatus := some "finished", winner := some winner }
          | none =>
            match getNextPlayer declaringPlayer.id room1.players with
            | none => Except.error "TypeError: cannot read id of undefined"
            | some nextPlayer =>
              Except.ok { room1 with currentTurnPlayerId := some nextPlayer.id }

/-- Embeds `socket.on('claimTurn')` (socket-server.js:518-539). -/
def claimTurn (room? : Option Room) (socketId : String) : Except String Room :=
  match room? with
  | none => Except.error "Room not found"
  | some room =>
    match findFirst room.players socketId with
    | none => Except.error "Player not found"
    | some player =>
      if player.canClaimTurn = false then
        Except.error "You cannot claim the turn"
      else
        Except.ok { room with
          players := setFirst room.players socketId
            fun p => { p with canClaimTurn := false },
          currentTurnPlayerId := some player.id }

/-!
Concrete runs of the registry and the start-game path.  `roomAfterJoins`
drives a room through the server's own handlers to the state the spec calls
ready to start: capacity 8, eight players, teams split four-four.
-/

def roomAfterJoins : Except String Room := do
  let (r0, _) ← createRoom false "s0" "Host" "room1" (some 8)
  let (r1, _) ← joinRoom (some r0) "P1" "s1"
  let (r2, _) ← joinRoom (some r1) "P2" "s2"
  let (r3, _) ← joinRoom (some r2) "P3" "s3"
  let (r4, _) ← joinRoom (some r3) "P4" "s4"
  let (r5, _) ← joinRoom (some r4) "P5" "s5"
  let (r6, _) ← joinRoom (some r5) "P6" "s6"
  let (r7, _) ← joinRoom (some r6) "P7" "s7"
  let r8 ← joinTeam (some r7) "s0" "red"
  let r9 ← joinTeam (some r8) "s1" "red"
  let r10 ← joinTeam (some r9) "s2" "red"
  let r11 ← joinTeam (some r10) "s3" "red"
  let r12 ← joinTeam (some r11) "s4" "blue"
  let r13 ← joinTeam (some r12) "s5" "blue"
  let r14 ← joinTeam (some r13) "s6" "blue"
  joinTeam (some r14) "s7" "blue"

/-- C1: for every startGame action on an existing room, it succeeds only if
the actor is the room's designated starter/host, players.length equals the
capacity fixed at creation, and team counts are equal; on success with 8
players it deals the shuffled 48-card deck 6 cards each, sets
currentTurnPlayerId to players[0].id and status to playing.  The code
cannot do this: `startGame` gates on `room.adminId` and `room.playerCount`,
neither of which is ever assigned (`createRoom` marks the host with
`isHost` and stores the capacity in `maxPlayers`), so even the host of a
full, evenly-teamed room is refused with the admin error. -/
theorem startGame_rejects_host_of_full_balanced_room :
    (roomAfterJoins.map fun r =>
      (r.players.length, r.maxPlayers,
       (r.players.filter fun p => decide (p.team = some "red")).length,
       (r.players.filter fun p => decide (p.team = some "blue")).length,
       r.players.head?.map Player.isHost,
       r.players.head?.map Player.id,
       r.adminId, r.playerCount))
      = Except.ok (8, some 8, 4, 4, some true, some "s0", none, none) ∧
    (roomAfterJoins.bind fun r => startGame (some r) "s0" fun _ => 0)
      = Except.error "Only the admin can start the game" :=
  ⟨rfl, rfl⟩

/-- C2: declareSet is supposed to append exactly one `{team, suit, setType}`
entry to the room's capturedSets.  On every room the server creates,
`capturedSets` is still the object `{A: [], B: []}` from `createRoom`, so
the `push` in `declareSet` throws a TypeError instead of appending: here,
the host's own declaration on a fresh room whose turn marker points at the
host.  The first conjunct shows the created room indeed carries the object
shape. -/
theorem declareSet_typeError_on_created_room :
    ((createRoom false "s0" "Host" "room1" (some 8)).map
      fun rp => rp.1.capturedSets)
      = Except.ok (CapturedSetsVal.obj [] []) ∧
    ((createRoom false "s0" "Host" "room1" (some 8)).map
      fun rp => declareSet
        (some { rp.1 with currentTurnPlayerId := some "s0" })
        "s0" "hearts" "lower")
      = Except.ok
        (Except.error "TypeError: room.capturedSets.push is not a function") :=
  ⟨rfl, rfl⟩

/-- A capacity-2 room taken through two joinRoom calls: both succeed, so the
room ends with 3 players. -/
def overfilledRoom : Except String Room := do
  let (r0, _) ← createRoom false "t0" "Host" "room2" (some 2)
  let (r1, _) ← joinRoom (some r0) "P1" "t1"
  let (r2, _) ← joinRoom (some r1) "P2" "t2"
  pure r2

/-- C3: joinRoom should fail with RoomFull once players.length equals the
capacity fixed at creation, keeping players.length within capacity.  The
NotFound half holds (first conjunct), but the fullness check reads
`room.playerCount`, which is never assigned — `createRoom` stores the
capacity in `maxPlayers` — so the check never fires: a room created with
capacity 2 accepts a second and a third player and ends with 3 > 2
players. -/
theorem joinRoom_overfills_capacity_2_room :
    joinRoom none "PX" "tX" = Except.error "Room not found" ∧
    (overfilledRoom.map fun r => (r.players.length, r.maxPlayers, r.playerCount))
      = Except.ok (3, some 2, none) :=
  ⟨rfl, rfl⟩

/-- Three red captures against two blue, as concrete capturedSets entries. -/
def threeRedTwoBlue : List CapturedSetEntry :=
  [{ team := some "red", suit := "hearts", setType := "lower" },
   { team := some "red", suit := "clubs", setType := "lower" },
   { team := some "red", suit := "spades", setType := "lower" },
   { team := some "blue", suit := "hearts", setType := "upper" },
   { team := some "blue", suit := "clubs", setType := "upper" }]

def threeRedThreeBlue : List CapturedSetEntry :=
  threeRedTwoBlue ++ [{ team := some "blue", suit := "spades", setType := "upper" }]

def threeRedOneBlue : List CapturedSetEntry :=
  [{ team := some "red", suit := "hearts", setType := "lower" },
   { team := some "red", suit := "clubs", setType := "lower" },
   { team := some "red", suit := "spades", setType := "lower" },
   { team := some "blue", suit := "hearts", setType := "upper" }]

/-- C7 counterexample: the claim says 3 entries for one team versus 2 for the
other yields no winner, but `checkWinCondition` returns the leading team
(3 ≥ 3 and 3 > 2 satisfy its first branch). -/
theorem checkWinCondition_three_two_yields_red :
    checkWinCondition threeRedTwoBlue = some "red" ∧
    checkWinCondition threeRedTwoBlue ≠ none := by
  refine ⟨rfl, ?_⟩
  decide

/-- C7 as amended: the evaluator returns the team whose count is at least 3
and strictly greater than the other team's (3 versus 2 therefore yields the
leading team, not no winner), a draw when both counts are at least 3 and
equal, and no winner otherwise; concretely 3-2 gives the leading team, 3-3 a
draw and 3-1 the leading team. -/
theorem checkWinCondition_characterization (cs : List CapturedSetEntry) :
    (redSetCount cs ≥ 3 ∧ redSetCount cs > blueSetCount cs →
      checkWinCondition cs = some "red") ∧
    (blueSetCount cs ≥ 3 ∧ blueSetCount cs > redSetCount cs →
      checkWinCondition cs = some "blue") ∧
    (redSetCount cs ≥ 3 ∧ blueSetCount cs ≥ 3 ∧
        redSetCount cs = blueSetCount cs →
      checkWinCondition cs = some "draw") ∧
    (¬(redSetCount cs ≥ 3 ∧ redSetCount cs > blueSetCount cs) ∧
     ¬(blueSetCount cs ≥ 3 ∧ blueSetCount cs > redSetCount cs) ∧
     ¬(redSetCount cs ≥ 3 ∧ blueSetCount cs ≥ 3 ∧
        redSetCount cs = blueSetCount cs) →
      checkWinCondition cs = none) ∧
    checkWinCondition threeRedTwoBlue = some "red" ∧
    checkWinCondition threeRedThreeBlue = some "draw" ∧
    checkWinCondition threeRedOneBlue = some "red" := by
  refine ⟨?_, ?_, ?_, ?_, rfl, rfl, rfl⟩ <;>
    · intro h
      simp only [checkWinCondition]
      split_ifs <;> first | rfl | omega

/-- A finished room: `declareSet` has set `gameStatus` to finished and the
winner to red (the `status` field is also set to finished here, though the
source never writes that field after creation).  Player p1 holds a
claim-turn flag. -/
def finishedRoom : Room :=
  { name := "f"
    players := [{ id := "p1", name := "Ann", team := some "red", hand := [],
                  isHost := false, connected := true, canClaimTurn := true }]
    maxPlayers := some 8
    playerCount := none
    adminId := none
    status := "finished"
    gameStatus := some "finished"
    teams := ([], [])
    currentTurn := none
    currentTurnPlayerId := some "p0"
    deck := []
    capturedSets := CapturedSetsVal.arr
      [{ team := some "red", suit := "hearts", setType := "lower" },
       { team := some "red", suit := "clubs", setType := "lower" },
       { team := some "red", suit := "spades", setType := "lower" }]
    winner := some "red"
    lastAction := none }

/-- C8 counterexample: on a finished room whose winner is set, a claimTurn
by a flag-holding player is accepted and mutates the room (the turn marker
moves to the claimant and the flag is cleared) — no handler checks the
room's status, so "no further action mutates the room" is false. -/
theorem claimTurn_mutates_finished_room :
    finishedRoom.status = "finished" ∧
    finishedRoom.gameStatus = some "finished" ∧
    finishedRoom.winner = some "red" ∧
    postRoom finishedRoom (claimTurn (some finishedRoom) "p1") ≠ finishedRoom := by
  refine ⟨rfl, rfl, rfl, ?_⟩
  decide

/-- The room on which `declareSet` completes a third red capture. -/
def declRoom : Room :=
  { name := "d"
    players := [{ id := "d1", name := "Dana", team := some "red",
                  hand := lowerRanks.map fun rank =>
                    { suit := "hearts", rank := rank, setType := "lower" },
                  isHost := false, connected := true, canClaimTurn := false },
                { id := "d2", name := "Eve", team := some "blue", hand := [],
                  isHost := false, connected := true, canClaimTurn := false }]
    maxPlayers := some 8
    playerCount := none
    adminId := none
    status := "waiting"
    gameStatus := some "playing"
    teams := ([], [])
    currentTurn := none
    currentTurnPlayerId := some "d1"
    deck := []
    capturedSets := CapturedSetsVal.arr
      [{ team := some "red", suit := "clubs", setType := "lower" },
       { team := some "red", suit := "spades", setType := "lower" }]
    winner := none
    lastAction := none }

def declRoomAfter : Room :=
  postRoom declRoom (declareSet (some declRoom) "d1" "hearts" "lower")

/-- C8 as amended: whenever declareSet changes a room's gameStatus it sets
it to finished together with a non-null winner (first conjunct, exercised by
the concrete third-capture declaration of the second and third conjuncts);
but a finished room is not frozen: claimTurn and joinTeam still mutate it,
since no handler checks the room's status. -/
theorem finished_room_winner_set_but_not_frozen :
    (∀ (room : Room) (sid su st : String) (r' : Room),
      declareSet (some room) sid su st = Except.ok r' →
      r'.gameStatus ≠ room.gameStatus →
      r'.gameStatus = some "finished" ∧ r'.winner ≠ none) ∧
    declareSet (some declRoom) "d1" "hearts" "lower" = Except.ok declRoomAfter ∧
    (declRoomAfter.gameStatus = some "finished" ∧
      declRoomAfter.winner = some "red") ∧
    postRoom finishedRoom (claimTurn (some finishedRoom) "p1") ≠ finishedRoom ∧
    postRoom finishedRoom (joinTeam (some finishedRoom) "p1" "blue") ≠ finishedRoom := by
  refine ⟨?_, rfl, ⟨rfl, rfl⟩, by decide, by decide⟩
  intro room sid su st r' hok hne
  simp only [declareSet] at hok
  split at hok
  · exact absurd hok (by simp)
  · split at hok
    · exact absurd hok (by simp)
    · split at hok
      · exact absurd hok (by simp)
      · split at hok
        · injection hok with h
          subst h
          exact ⟨rfl, by simp⟩
        · split at hok
          · exact absurd hok (by simp)
          · injection hok with h
            subst h
            exact absurd rfl hne

/-- Writing value `d` at a position currently holding `b` produces, up to
permutation, a list carrying `d` in place of `b`. -/
theorem set_cons_perm {α : Type} (xs : List α) (m : Nat) (b d : α)
    (h : xs[m]? = some b) : List.Perm (b :: xs.set m d) (d :: xs) := by
  induction xs generalizing m with
  | nil => simp at h
  | cons x t ih =>
    cases m with
    | zero =>
      simp only [List.getElem?_cons_zero, Option.some.injEq] at h
      subst h
      exact List.Perm.swap d x t
    | succ k =>
      simp only [List.getElem?_cons_succ] at h
      exact ((List.Perm.swap x b (t.set k d)).trans
        (List.Perm.cons x (ih k h))).trans (List.Perm.swap d x t)

/-- One Fisher-Yates swap is a permutation. -/
theorem swapList_perm (l : List Card) (i j : Nat) :
    List.Perm (swapList l i j) l := by
  unfold swapList
  split
  case _ a b hi hj =>
    have hperm1 : List.Perm (a :: l.set i b) (b :: l) :=
      set_cons_perm l i a b hi
    have hjlt : j < l.length := by
      by_contra hc
      simp [List.getElem?_eq_none (Nat.le_of_not_lt hc)] at hj
    have hj2 : (l.set i b)[j]? = some b := by
      rcases eq_or_ne i j with rfl | hne
      · exact List.getElem?_set_self hjlt
      · rw [List.getElem?_set_ne hne]
        exact hj
    have hperm2 : List.Perm (b :: (l.set i b).set j a) (a :: l.set i b) :=
      set_cons_perm (l.set i b) j b a hj2
    exact (hperm2.trans hperm1).cons_inv
  case _ => exact List.Perm.refl l

/-- The whole shuffle loop is a permutation, whatever indices the random
source draws. -/
theorem shuffleFrom_perm (js : Nat → Nat) :
    ∀ (n : Nat) (d : List Card), List.Perm (shuffleFrom js n d) d := by
  intro n
  induction n with
  | zero => intro d; exact List.Perm.refl d
  | succ i ih =>
    intro d
    exact (ih (swapList d (i + 1) (js (i + 1)))).trans
      (swapList_perm d (i + 1) (js (i + 1)))

/-- C9: for every choice of the shuffle's random indices,
`createAndShuffleDeck` returns a permutation of the canonical 48-card deck:
48 cards, all `(suit, rank, setType)` triples distinct, and every rank of
every one of the 8 sets present. -/
theorem createAndShuffleDeck_is_permutation_of_full_deck (js : Nat → Nat) :
    List.Perm (createAndShuffleDeck js) orderedDeck ∧
    (createAndShuffleDeck js).length = 48 ∧
    (createAndShuffleDeck js).Nodup ∧
    orderedDeck.length = 48 ∧
    orderedDeck.Nodup ∧
    (suits.all fun suit =>
      (lowerRanks.all fun rank =>
        decide ((⟨suit, rank, "lower"⟩ : Card) ∈ orderedDeck)) &&
      (upperRanks.all fun rank =>
        decide ((⟨suit, rank, "upper"⟩ : Card) ∈ orderedDeck))) = true ∧
    (∀ c : Card, c ∈ createAndShuffleDeck js ↔ c ∈ orderedDeck) := by
  have hperm : List.Perm (createAndShuffleDeck js) orderedDeck :=
    shuffleFrom_perm js (orderedDeck.length - 1) orderedDeck
  have hlen : orderedDeck.length = 48 := by decide
  have hnodup : orderedDeck.Nodup := by decide
  exact ⟨hperm, by rw [hperm.length_eq, hlen], hperm.nodup_iff.mpr hnodup,
    hlen, hnodup, by decide, fun c => hperm.mem_iff⟩

/-- The player `find` returns carries the id it was looked up by. -/
theorem findFirst_id (l : List Player) (pid : String) (p : Player)
    (h : findFirst l pid = some p) : p.id = pid := by
  induction l with
  | nil => simp [findFirst] at h
  | cons q t ih =>
    by_cases hq : q.id = pid
    · simp only [findFirst, if_pos hq] at h
      cases h
      exact hq
    · simp only [findFirst, if_neg hq] at h
      exact ih h

/-- A found player splits the list at its first occurrence, and `setFirst`
rewrites exactly that occurrence, for any update. -/
theorem findFirst_decomp (l : List Player) (pid : String) (p : Player)
    (h : findFirst l pid = some p) :
    ∃ l₁ l₂, l = l₁ ++ p :: l₂ ∧ (∀ q ∈ l₁, ¬(q.id = pid)) ∧
      ∀ f, setFirst l pid f = l₁ ++ f p :: l₂ := by
  induction l with
  | nil => simp [findFirst] at h
  | cons q t ih =>
    by_cases hq : q.id = pid
    · simp only [findFirst, if_pos hq] at h
      cases h
      exact ⟨[], t, rfl, by simp, fun f => by simp [setFirst, hq]⟩
    · simp only [findFirst, if_neg hq] at h
      obtain ⟨l₁, l₂, hl, hfree, hset⟩ := ih h
      exact ⟨q :: l₁, l₂, by simp [hl], by simpa [hq] using hfree,
        fun f => by simp [setFirst, hq, hset f]⟩

/-- Updating the first `pid` player leaves lookups for another id alone,
provided the update keeps ids. -/
theorem findFirst_setFirst_ne (l : List Player) (pid pid' : String)
    (f : Player → Player) (hne : pid ≠ pid')
    (hf : ∀ p, (f p).id = p.id) :
    findFirst (setFirst l pid f) pid' = findFirst l pid' := by
  induction l with
  | nil => rfl
  | cons q t ih =>
    have hne' : ¬(pid' = pid) := fun hh => hne hh.symm
    by_cases hq : q.id = pid
    · have hq' : ¬((f q).id = pid') := by rw [hf q, hq]; exact hne
      have hq'' : ¬(q.id = pid') := by rw [hq]; exact hne
      simp [setFirst, findFirst, hq, hq', hq'', hne, hne']
    · by_cases hq' : q.id = pid'
      · simp [setFirst, findFirst, hq, hq', hne, hne']
      · simp [setFirst, findFirst, hq, hq', ih]

/-- `setFirst` keeps the list's length. -/
theorem setFirst_length (l : List Player) (pid : String) (f : Player → Player) :
    (setFirst l pid f).length = l.length := by
  induction l with
  | nil => rfl
  | cons q t ih =>
    by_cases hq : q.id = pid <;> simp [setFirst, hq, ih]

/-- A position holding a player with a different id is untouched by
`setFirst`. -/
theorem setFirst_getElem_ne (l : List Player) (pid : String)
    (f : Player → Player) (k : Nat) (p : Player)
    (hk : l[k]? = some p) (hne : ¬(p.id = pid)) :
    (setFirst l pid f)[k]? = some p := by
  induction l generalizing k with
  | nil => simp at hk
  | cons q t ih =>
    by_cases hq : q.id = pid
    · cases k with
      | zero =>
        simp only [List.getElem?_cons_zero, Option.some.injEq] at hk
        exact absurd (hk ▸ hq) hne
      | succ m =>
        simp only [List.getElem?_cons_succ] at hk
        simp [setFirst, hq, hk]
    · cases k with
      | zero =>
        simp only [List.getElem?_cons_zero, Option.some.injEq] at hk
        subst hk
        simp [setFirst, hq]
      | succ m =>
        simp only [List.getElem?_cons_succ] at hk
        simp [setFirst, hq, ih m hk]

/-- A player with everything but the hand. -/
def stripHand (p : Player) : Player := { p with hand := [] }

/-- An update that only changes hands is invisible once hands are
stripped. -/
theorem setFirst_map_stripHand (l : List Player) (pid : String)
    (f : Player → Player) (hf : ∀ p, stripHand (f p) = stripHand p) :
    (setFirst l pid f).map stripHand = l.map stripHand := by
  induction l with
  | nil => rfl
  | cons q t ih =>
    by_cases hq : q.id = pid <;> simp [setFirst, hq, ih, hf q]

/-- Special case of `setFirst_map_stripHand` for a plain hand overwrite. -/
theorem setFirst_hand_map_stripHand (l : List Player) (pid : String)
    (h : List Card) :
    (setFirst l pid fun p => { p with hand := h }).map stripHand
      = l.map stripHand :=
  setFirst_map_stripHand l pid _ fun _ => rfl

/-- What `extractCard` returns is the first matching card, and the card it
returns does match. -/
theorem extractCard_of_any (hand : List Card) (suit rank setType : String)
    (h : (hand.any fun card =>
      decide (card.suit = suit ∧ card.rank = rank ∧ card.setType = setType)) = true) :
    ∃ c rest, extractCard hand suit rank setType = some (c, rest) ∧
      c.suit = suit ∧ c.rank = rank ∧ c.setType = setType := by
  induction hand with
  | nil => simp at h
  | cons x t ih =>
    by_cases hx : x.suit = suit ∧ x.rank = rank ∧ x.setType = setType
    · exact ⟨x, t, by simp [extractCard, hx], hx.1, hx.2.1, hx.2.2⟩
    · have h' : (t.any fun card =>
          decide (card.suit = suit ∧ card.rank = rank ∧ card.setType = setType)) = true := by
        simp only [List.any_cons, Bool.or_eq_true, decide_eq_true_eq] at h
        rcases h with h | h
        · exact absurd h hx
        · exact h
      obtain ⟨c, rest, hex, hc⟩ := ih h'
      exact ⟨c, x :: rest, by simp [extractCard, hx, hex], hc⟩

/-- Removing the extracted card splits the hand as a multiset. -/
theorem extractCard_multiset (hand : List Card) (suit rank setType : String)
    (c : Card) (rest : List Card)
    (h : extractCard hand suit rank setType = some (c, rest)) :
    (hand : Multiset Card) = c ::ₘ (rest : Multiset Card) := by
  induction hand generalizing rest with
  | nil => simp [extractCard] at h
  | cons x t ih =>
    by_cases hx : x.suit = suit ∧ x.rank = rank ∧ x.setType = setType
    · simp only [extractCard, if_pos hx, Option.some.injEq, Prod.mk.injEq] at h
      obtain ⟨rfl, rfl⟩ := h
      simp
    · simp only [extractCard, if_neg hx] at h
      cases hex : extractCard t suit rank setType with
      | none => rw [hex] at h; exact absurd h (by simp)
      | some pr =>
        rw [hex] at h
        obtain ⟨c', rest'⟩ := pr
        simp only [Option.some.injEq, Prod.mk.injEq] at h
        obtain ⟨rfl, rfl⟩ := h
        have hrec := ih rest' hex
        simp only [← Multiset.cons_coe]
        rw [hrec]
        exact Multiset.cons_swap x c' _

/-- C4: with requester and target both found in the room, a request by a
non-turn-holder fails with NotYourTurn; a request by the turn holder fails
with InvalidRequest exactly when `isValidRequest` fails; and the validity
predicate indeed fails when the requester already holds the exact card,
holds no card of the requested set, targets themselves or a teammate, or
when either hand is empty; every failed request leaves the room
unchanged. -/
theorem requestCard_error_conditions (room : Room)
    (socketId targetPlayerId suit rank setType : String) (req tgt : Player)
    (hreq : findFirst room.players socketId = some req)
    (htgt : findFirst room.players targetPlayerId = some tgt) :
    (room.currentTurnPlayerId ≠ some req.id →
      requestCard (some room) socketId targetPlayerId suit rank setType
        = Except.error "Not your turn") ∧
    (room.currentTurnPlayerId = some req.id →
      (requestCard (some room) socketId targetPlayerId suit rank setType
          = Except.error "Invalid card request"
        ↔ isValidRequest req tgt suit rank setType = false)) ∧
    ((req.hand.any fun card =>
        decide (card.suit = suit ∧ card.rank = rank ∧ card.setType = setType)) = true →
      isValidRequest req tgt suit rank setType = false) ∧
    ((req.hand.any fun card =>
        decide (card.suit = suit ∧ card.setType = setType)) = false →
      isValidRequest req tgt suit rank setType = false) ∧
    (req.id = tgt.id ∨ req.team = tgt.team →
      isValidRequest req tgt suit rank setType = false) ∧
    (req.hand = [] ∨ tgt.hand = [] →
      isValidRequest req tgt suit rank setType = false) ∧
    (∀ e, requestCard (some room) socketId targetPlayerId suit rank setType
        = Except.error e →
      postRoom room (requestCard (some room) socketId targetPlayerId suit rank setType)
        = room) := by
  refine ⟨?_, ?_, ?_, ?_, ?_, ?_, ?_⟩
  · intro hturn
    simp only [requestCard, hreq, htgt, if_pos hturn]
  · intro hturn
    have hcond : ¬(room.currentTurnPlayerId ≠ some req.id) := by
      rw [hturn]
      simp
    simp only [requestCard, hreq, htgt, if_neg hcond]
    cases hval : isValidRequest req tgt suit rank setType with
    | false => simp
    | true =>
      rw [if_neg (by simp)]
      constructor
      · intro h
        split at h <;> exact absurd h (by simp)
      · intro h
        exact absurd h (by simp)
  · intro hexact
    simp only [isValidRequest]
    split_ifs <;> simp_all
  · intro hnone
    simp only [isValidRequest]
    split_ifs <;> simp_all
  · intro hor
    simp only [isValidRequest]
    split_ifs <;> simp_all
  · intro hor
    simp only [isValidRequest]
    split_ifs <;> simp_all [List.length_eq_zero]
  · intro e h
    rw [h]
    rfl

/-- A concrete playing room exercising `requestCard_error_conditions`:
q1 (red, turn holder) and q2 (blue) each hold one hearts-lower card. -/
def reqRoom : Room :=
  { name := "q"
    players := [{ id := "q1", name := "Quinn", team := some "red",
                  hand := [{ suit := "hearts", rank := "ace", setType := "lower" }],
                  isHost := false, connected := true, canClaimTurn := false },
                { id := "q2", name := "Riley", team := some "blue",
                  hand := [{ suit := "hearts", rank := "2", setType := "lower" }],
                  isHost := false, connected := true, canClaimTurn := false }]
    maxPlayers := some 8
    playerCount := none
    adminId := none
    status := "waiting"
    gameStatus := some "playing"
    teams := ([], [])
    currentTurn := none
    currentTurnPlayerId := some "q1"
    deck := []
    capturedSets := CapturedSetsVal.arr []
    winner := none
    lastAction := none }

def reqRoomP1 : Player :=
  { id := "q1", name := "Quinn", team := some "red",
    hand := [{ suit := "hearts", rank := "ace", setType := "lower" }],
    isHost := false, connected := true, canClaimTurn := false }

def reqRoomP2 : Player :=
  { id := "q2", name := "Riley", team := some "blue",
    hand := [{ suit := "hearts", rank := "2", setType := "lower" }],
    isHost := false, connected := true, canClaimTurn := false }

/-- Witness for `requestCard_error_conditions` at the concrete room: a
request by q2 (not the turn holder) fails with NotYourTurn, and a request
by q1 for the ace it already holds fails with InvalidRequest. -/
theorem requestCard_error_conditions_witness :
    (requestCard (some reqRoom) "q2" "q1" "hearts" "2" "lower"
      = Except.error "Not your turn") ∧
    (requestCard (some reqRoom) "q1" "q2" "hearts" "ace" "lower"
      = Except.error "Invalid card request") := by
  constructor
  · exact (requestCard_error_conditions reqRoom "q2" "q1" "hearts" "2" "lower"
      reqRoomP2 reqRoomP1 rfl rfl).1 (by decide)
  · refine ((requestCard_error_conditions reqRoom "q1" "q2" "hearts" "ace" "lower"
      reqRoomP1 reqRoomP2 rfl rfl).2.1 (by decide)).mpr ?_
    decide

/-- C5: a valid (non-rejected) requestCard always hands the turn to the
target: the result room's currentTurnPlayerId equals targetPlayerId, and the
hands change exactly by moving the requested card from the target's hand to
the end of the requester's hand when the target held it, and not at all when
the target did not. -/
theorem requestCard_turn_passes_to_target (room : Room)
    (socketId targetPlayerId suit rank setType : String) (req tgt : Player)
    (hreq : findFirst room.players socketId = some req)
    (htgt : findFirst room.players targetPlayerId = some tgt)
    (hturn : room.currentTurnPlayerId = some req.id)
    (hvalid : isValidRequest req tgt suit rank setType = true) :
    ∃ room', requestCard (some room) socketId targetPlayerId suit rank setType
        = Except.ok room' ∧
      room'.currentTurnPlayerId = some targetPlayerId ∧
      ((tgt.hand.any fun card =>
          decide (card.suit = suit ∧ card.rank = rank ∧ card.setType = setType)) = true →
        ∃ c rest, extractCard tgt.hand suit rank setType = some (c, rest) ∧
          c.suit = suit ∧ c.rank = rank ∧ c.setType = setType ∧
          room'.players = setFirst
            (setFirst room.players targetPlayerId fun p => { p with hand := rest })
            socketId fun p => { p with hand := req.hand ++ [c] }) ∧
      ((tgt.hand.any fun card =>
          decide (card.suit = suit ∧ card.rank = rank ∧ card.setType = setType)) = false →
        room'.players = room.players) := by
  have hcond : ¬(room.currentTurnPlayerId ≠ some req.id) := by
    rw [hturn]
    simp
  have hid : tgt.id = targetPlayerId := findFirst_id room.players targetPlayerId tgt htgt
  cases hany : tgt.hand.any (fun card =>
      decide (card.suit = suit ∧ card.rank = rank ∧ card.setType = setType)) with
  | true =>
    obtain ⟨c, rest, hex, hs, hr, ht⟩ := extractCard_of_any tgt.hand suit rank setType hany
    have htr : transferCard tgt.hand req.hand suit rank setType
        = (true, rest, req.hand ++ [c]) := by
      simp [transferCard, hex]
    refine ⟨{ room with
        players := setFirst
          (setFirst room.players targetPlayerId fun p => { p with hand := rest })
          socketId fun p => { p with hand := req.hand ++ [c] },
        lastAction := some (req.name ++ " got the " ++ rank ++ " of " ++ suit
          ++ " from " ++ tgt.name),
        currentTurnPlayerId := some tgt.id }, ?_, ?_, ?_, ?_⟩
    · simp only [requestCard, hreq, htgt, if_neg hcond, hvalid]
      rw [if_neg (by simp), hany]
      simp [htr]
    · simp [hid]
    · intro _
      exact ⟨c, rest, hex, hs, hr, ht, rfl⟩
    · intro hfalse
      exact absurd hfalse (by simp)
  | false =>
    refine ⟨{ room with
        lastAction := some (req.name ++ " asked " ++ tgt.name ++ " for the "
          ++ rank ++ " of " ++ suit ++ " but they didn\x27t have it"),
        currentTurnPlayerId := some tgt.id }, ?_, ?_, ?_, ?_⟩
    · simp only [requestCard, hreq, htgt, if_neg hcond, hvalid]
      rw [if_neg (by simp), hany]
      simp
    · simp [hid]
    · intro htrue
      exact absurd htrue (by simp)
    · intro _
      rfl

/-- Witness for `requestCard_turn_passes_to_target`: in the concrete room,
q1 validly asks q2 for the 2 of hearts and the turn passes to q2. -/
theorem requestCard_turn_passes_to_target_witness :
    ∃ room', requestCard (some reqRoom) "q1" "q2" "hearts" "2" "lower"
        = Except.ok room' ∧
      room'.currentTurnPlayerId = some "q2" :=
  let h := requestCard_turn_passes_to_target reqRoom "q1" "q2" "hearts" "2"
    "lower" reqRoomP1 reqRoomP2 rfl rfl rfl (by decide)
  ⟨h.choose, h.choose_spec.1, h.choose_spec.2.1⟩

/-- C10: a successful requestCard changes at most the requester's hand, the
target's hand, currentTurnPlayerId and lastAction: every other room field is
untouched, the players list keeps its length, membership, order and
per-player non-hand data, and every player whose id is neither the
requester's nor the target's keeps their whole record. -/
theorem requestCard_frame (room : Room)
    (socketId targetPlayerId suit rank setType : String) (room' : Room)
    (hok : requestCard (some room) socketId targetPlayerId suit rank setType
      = Except.ok room') :
    room'.name = room.name ∧ room'.maxPlayers = room.maxPlayers ∧
    room'.playerCount = room.playerCount ∧ room'.adminId = room.adminId ∧
    room'.status = room.status ∧ room'.gameStatus = room.gameStatus ∧
    room'.teams = room.teams ∧ room'.currentTurn = room.currentTurn ∧
    room'.deck = room.deck ∧ room'.capturedSets = room.capturedSets ∧
    room'.winner = room.winner ∧
    room'.players.length = room.players.length ∧
    room'.players.map stripHand = room.players.map stripHand ∧
    (∀ (k : Nat) (p q : Player),
      room.players[k]? = some p → room'.players[k]? = some q →
      ¬(p.id = socketId) → ¬(p.id = targetPlayerId) → q = p) := by
  simp only [requestCard] at hok
  split at hok
  · exact absurd hok (by simp)
  · split at hok
    · exact absurd hok (by simp)
    · split at hok
      · exact absurd hok (by simp)
      · split at hok
        · exact absurd hok (by simp)
        · split at hok
          · injection hok with h
            subst h
            refine ⟨rfl, rfl, rfl, rfl, rfl, rfl, rfl, rfl, rfl, rfl, rfl,
              (setFirst_length _ _ _).trans (setFirst_length _ _ _),
              ?_, ?_⟩
            · rw [setFirst_hand_map_stripHand, setFirst_hand_map_stripHand]
            · intro k p q hk hk' hp1 hp2
              rw [setFirst_getElem_ne _ socketId _ k p
                (setFirst_getElem_ne room.players targetPlayerId _ k p hk hp2)
                hp1] at hk'
              injection hk' with h
              exact h.symm
          · injection hok with h
            subst h
            refine ⟨rfl, rfl, rfl, rfl, rfl, rfl, rfl, rfl, rfl, rfl, rfl,
              rfl, rfl, ?_⟩
            intro k p q hk hk' _ _
            rw [hk] at hk'
            injection hk' with h
            exact h.symm

/-- Witness for `requestCard_frame`: the concrete valid request of q1 to q2
leaves everything but hands, turn and lastAction unchanged. -/
theorem requestCard_frame_witness :
    (postRoom reqRoom (requestCard (some reqRoom) "q1" "q2" "hearts" "2" "lower")).capturedSets
      = reqRoom.capturedSets ∧
    (postRoom reqRoom (requestCard (some reqRoom) "q1" "q2" "hearts" "2" "lower")).winner
      = reqRoom.winner ∧
    (postRoom reqRoom (requestCard (some reqRoom) "q1" "q2" "hearts" "2" "lower")).players.length
      = reqRoom.players.length :=
  let h := requestCard_frame reqRoom "q1" "q2" "hearts" "2" "lower"
    (postRoom reqRoom (requestCard (some reqRoom) "q1" "q2" "hearts" "2" "lower"))
    rfl
  ⟨h.2.2.2.2.2.2.2.2.2.1, h.2.2.2.2.2.2.2.2.2.2.1, h.2.2.2.2.2.2.2.2.2.2.2.1⟩

/-- All cards held in the hands of a list of players, as a multiset. -/
def joinHands (l : List Player) : Multiset Card :=
  (((l.map Player.hand).join : List Card) : Multiset Card)

/-- All cards held in a room's hands. -/
def allCardsM (room : Room) : Multiset Card :=
  joinHands room.players

theorem joinHands_append (l₁ l₂ : List Player) :
    joinHands (l₁ ++ l₂) = joinHands l₁ + joinHands l₂ := by
  simp [joinHands]

theorem joinHands_cons (p : Player) (l : List Player) :
    joinHands (p :: l) = (p.hand : Multiset Card) + joinHands l := by
  simp [joinHands]

/-- A valid request never targets the requester. -/
theorem isValidRequest_ids_ne (req tgt : Player) (suit rank setType : String)
    (h : isValidRequest req tgt suit rank setType = true) :
    ¬(req.id = tgt.id) := by
  simp only [isValidRequest] at h
  split_ifs at h <;> simp_all

/-- Overwriting the hands of the first `pidT` player and then of the first
`pidR` player trades exactly the two old hands for the two new ones in the
room's card multiset. -/
theorem joinHands_setFirst_setFirst (l : List Player) (pidT pidR : String)
    (tgt req : Player) (hT hR : List Card)
    (htgt : findFirst l pidT = some tgt)
    (hkeys : pidT ≠ pidR)
    (hreq : findFirst l pidR = some req) :
    joinHands (setFirst (setFirst l pidT fun p => { p with hand := hT })
        pidR fun p => { p with hand := hR })
      + (tgt.hand : Multiset Card) + (req.hand : Multiset Card)
      = joinHands l + (hT : Multiset Card) + (hR : Multiset Card) := by
  obtain ⟨A, B, hlist, -, hset⟩ := findFirst_decomp l pidT tgt htgt
  have hfr1 : findFirst (setFirst l pidT fun p => { p with hand := hT }) pidR
      = some req := by
    rw [findFirst_setFirst_ne l pidT pidR
      (fun p => { p with hand := hT }) hkeys fun p => rfl]
    exact hreq
  obtain ⟨A', B', hlist', -, hset'⟩ :=
    findFirst_decomp (setFirst l pidT fun p => { p with hand := hT })
      pidR req hfr1
  have key : joinHands A + (hT : Multiset Card) + joinHands B
      = joinHands A' + (req.hand : Multiset Card) + joinHands B' := by
    have h1 : joinHands (setFirst l pidT fun p => { p with hand := hT })
        = joinHands A + (hT : Multiset Card) + joinHands B := by
      rw [hset]
      simp [joinHands_append, joinHands_cons]
      abel
    have h2 : joinHands (setFirst l pidT fun p => { p with hand := hT })
        = joinHands A' + (req.hand : Multiset Card) + joinHands B' := by
      rw [hlist']
      simp [joinHands_append, joinHands_cons]
      abel
    rw [← h1, h2]
  rw [hset', hlist, joinHands_append, joinHands_cons,
    joinHands_append, joinHands_cons]
  calc joinHands A' + ((hR : Multiset Card) + joinHands B')
        + (tgt.hand : Multiset Card) + (req.hand : Multiset Card)
      = (joinHands A' + (req.hand : Multiset Card) + joinHands B')
        + (tgt.hand : Multiset Card) + (hR : Multiset Card) := by abel
    _ = (joinHands A + (hT : Multiset Card) + joinHands B)
        + (tgt.hand : Multiset Card) + (hR : Multiset Card) := by rw [← key]
    _ = joinHands A + ((tgt.hand : Multiset Card) + joinHands B)
        + (hT : Multiset Card) + (hR : Multiset Card) := by abel

/-- C6 step: a requestCard that is accepted (ok) leaves the multiset of all
cards across all hands unchanged — a transfer removes the card from the
target's hand and appends that same card to the requester's, duplicating and
dropping nothing. -/
theorem requestCard_preserves_cards (room : Room)
    (socketId targetPlayerId suit rank setType : String) (room' : Room)
    (hok : requestCard (some room) socketId targetPlayerId suit rank setType
      = Except.ok room') :
    allCardsM room' = allCardsM room := by
  simp only [requestCard] at hok
  split at hok
  · exact absurd hok (by simp)
  · split at hok
    · exact absurd hok (by simp)
    · split at hok
      · exact absurd hok (by simp)
      · split at hok
        · exact absurd hok (by simp)
        · split at hok
          · rename_i x1 req hreq x2 tgt htgt hturn hnval hany
            have hv : isValidRequest req tgt suit rank setType = true := by
              cases hb : isValidRequest req tgt suit rank setType
              · exact absurd hb hnval
              · rfl
            have hne := isValidRequest_ids_ne req tgt suit rank setType hv
            have hrid : req.id = socketId := findFirst_id _ _ _ hreq
            have htid : tgt.id = targetPlayerId := findFirst_id _ _ _ htgt
            have hkeys : targetPlayerId ≠ socketId := by
              intro hh
              exact hne (by rw [hrid, htid, hh])
            obtain ⟨c, rest, hex, -, -, -⟩ :=
              extractCard_of_any tgt.hand suit rank setType hany
            have htr : transferCard tgt.hand req.hand suit rank setType
                = (true, rest, req.hand ++ [c]) := by
              simp [transferCard, hex]
            have hhand : (tgt.hand : Multiset Card)
                = c ::ₘ (rest : Multiset Card) :=
              extractCard_multiset tgt.hand suit rank setType c rest hex
            injection hok with h
            subst h
            simp only [allCardsM, htr]
            have main := joinHands_setFirst_setFirst room.players targetPlayerId
              socketId tgt req rest (req.hand ++ [c]) htgt hkeys hreq
            rw [hhand] at main
            have main2 : joinHands (setFirst (setFirst room.players
                  targetPlayerId fun p => { p with hand := rest }) socketId
                  fun p => { p with hand := req.hand ++ [c] })
                + ((rest : Multiset Card) + (req.hand : Multiset Card)
                  + ({c} : Multiset Card))
                = joinHands room.players
                + ((rest : Multiset Card) + (req.hand : Multiset Card)
                  + ({c} : Multiset Card)) := by
              calc joinHands (setFirst (setFirst room.players
                    targetPlayerId fun p => { p with hand := rest }) socketId
                    fun p => { p with hand := req.hand ++ [c] })
                  + ((rest : Multiset Card) + (req.hand : Multiset Card)
                    + ({c} : Multiset Card))
                  = joinHands (setFirst (setFirst room.players
                      targetPlayerId fun p => { p with hand := rest }) socketId
                      fun p => { p with hand := req.hand ++ [c] })
                    + (c ::ₘ (rest : Multiset Card))
                    + (req.hand : Multiset Card) := by
                    rw [← Multiset.singleton_add]
                    abel
                _ = joinHands room.players + (rest : Multiset Card)
                    + (((req.hand ++ [c] : List Card)) : Multiset Card) := main
                _ = joinHands room.players
                    + ((rest : Multiset Card) + (req.hand : Multiset Card)
                      + ({c} : Multiset Card)) := by
                    show joinHands room.players + (rest : Multiset Card)
                      + ((req.hand : Multiset Card) + ({c} : Multiset Card)) = _
                    abel
            exact add_right_cancel main2
          · injection hok with h
            subst h
            rfl

/-- One inbound requestCard action, as data. -/
structure ReqAction where
  socketId : String
  targetPlayerId : String
  suit : String
  rank : String
  setType : String

/-- The room after handling one requestCard action (rejected actions leave
it unchanged). -/
def applyRequest (room : Room) (a : ReqAction) : Room :=
  postRoom room (requestCard (some room) a.socketId a.targetPlayerId
    a.suit a.rank a.setType)

/-- The room after a whole sequence of requestCard actions. -/
def applyRequests (room : Room) (as : List ReqAction) : Room :=
  as.foldl applyRequest room

/-- C6: over any sequence of requestCard actions the multiset of cards
across all hands — hence also the total count, 48 after a deal — is
invariant: every card stays in exactly one hand. -/
theorem requestCard_sequences_conserve_cards :
    ∀ (as : List ReqAction) (room : Room),
      allCardsM (applyRequests room as) = allCardsM room ∧
      Multiset.card (allCardsM (applyRequests room as))
        = Multiset.card (allCardsM room) := by
  intro as
  induction as with
  | nil => exact fun room => ⟨rfl, rfl⟩
  | cons a as ih =>
    intro room
    have hstep : allCardsM (applyRequest room a) = allCardsM room := by
      unfold applyRequest
      cases hrc : requestCard (some room) a.socketId a.targetPlayerId
          a.suit a.rank a.setType with
      | error e => rfl
      | ok r' =>
        exact requestCard_preserves_cards room a.socketId a.targetPlayerId
          a.suit a.rank a.setType r' hrc
    have hmain : allCardsM (applyRequests room (a :: as)) = allCardsM room :=
      ((ih (applyRequest room a)).1).trans hstep
    exact ⟨hmain, congrArg Multiset.card hmain⟩
